import Mathlib

/-!
Shallow embedding of `src/reseeding.rs` (the `ReseedingRng` wrapper of the
`rand` crate), which reseeds an inner PRNG after a threshold of generated
bytes, together with proofs about its reseeding policy.

Generators are modelled as explicit state machines: the inner generator type
`R` and the reseed-source type `Rsdr` are type parameters, the `RngCore`
trait methods are a record of state-passing functions, and the seeding
capability `SeedableRng::from_rng` is a function `Rsdr → Except Error R × Rsdr`
(it consumes bytes from the source, so it threads the source state, and it
can fail). Rust `i64` counters are modelled as `Int`: no operation can
overflow them, since `threshold ≤ i64::MAX` is asserted at construction and
`bytes_until_reseed` is reconciled as soon as it drops to `≤ 0`.
-/

/-- Modelled from the spec: the error-kind taxonomy of the crate's `Error`
type, which is declared outside `src/`. Sections 6 and 7 of the spec
recognise three categories: *Transient* (ephemeral, immediate retry safe),
a category that self-reports as worth retrying, and a residual *other*
category carrying no retry guidance. -/
inductive ErrorKind where
  | Transient
  | Retryable
  | Other
deriving DecidableEq, Repr

/-- Modelled from the spec: `ErrorKind::should_retry`, declared outside
`src/` — whether the kind classifies the error as worth retrying.
*Transient* errors are safe to retry immediately, the retryable category
self-reports as worth retrying, and the residual *other* kind does not. -/
def ErrorKind.should_retry : ErrorKind → Bool
  | ErrorKind.Transient => true
  | ErrorKind.Retryable => true
  | ErrorKind.Other => false

/-- Modelled from the spec: the crate's `Error` object, declared outside
`src/` — a severity `kind` together with an opaque payload (message/cause),
abstracted here as a numeric `code`. -/
structure Error where
  kind : ErrorKind
  code : Nat
deriving DecidableEq, Repr

/-- Capability set of a generator with state type `R` (the `RngCore` trait,
a collaborator interface used by `src/reseeding.rs`): produce a 4-byte
value, produce an 8-byte value, fill a buffer of a given length, and the
fallible fill. The fallible fill returns the `Result` together with the
buffer contents after the call, because the Rust method writes into `dest`
in place whether or not it also reports an error. -/
structure RngCore (R : Type) where
  next_u32 : R → Nat × R
  next_u64 : R → Nat × R
  fill_bytes : R → Nat → List Nat × R
  try_fill_bytes : R → Nat → (Except Error Unit × List Nat) × R

/-- Rust `i64::MAX`, i.e. `2^63 - 1`. -/
def i64_MAX : Int := 9223372036854775807

/-- State of the wrapper (`struct ReseedingRng`, src/reseeding.rs:57-63). -/
structure ReseedingRng (R Rsdr : Type) where
  rng : R
  reseeder : Rsdr
  threshold : Int
  bytes_until_reseed : Int
deriving DecidableEq, Repr

variable {R Rsdr : Type}

/-- Constructor `ReseedingRng::new` (src/reseeding.rs:73-81). `threshold`
arrives as a `u64` (here `Nat`); the Rust code `assert!`s
`threshold <= i64::MAX as u64`, and the panic on violation is modelled as
`none`. -/
def ReseedingRng.new (rng : R) (threshold : Nat) (reseeder : Rsdr) :
    Option (ReseedingRng R Rsdr) :=
  if (threshold : Int) ≤ i64_MAX then
    Option.some { rng := rng, reseeder := reseeder,
                  threshold := (threshold : Int),
                  bytes_until_reseed := (threshold : Int) }
  else
    Option.none

/-- Fallible reseed protocol `ReseedingRng::try_reseed`
(src/reseeding.rs:103-123), parametrised by the seeding capability
`from_rng` (`SeedableRng::from_rng`, applied to `&mut self.reseeder`).
On failure the retry delay is chosen by the kind of the source error, the
error's kind is overwritten with `Transient`, and the error is returned;
on success the fresh instance is installed and the byte budget reset. -/
def ReseedingRng.try_reseed (from_rng : Rsdr → Except Error R × Rsdr)
    (s : ReseedingRng R Rsdr) :
    Except Error Unit × ReseedingRng R Rsdr :=
  match from_rng s.reseeder with
  | (Except.error e, rs') =>
      let delay : Int :=
        match e.kind with
        | ErrorKind.Transient => 0
        | k => if k.should_retry then s.threshold >>> 8 else s.threshold
      (Except.error { e with kind := ErrorKind.Transient },
       { s with reseeder := rs', bytes_until_reseed := delay })
  | (Except.ok result, rs') =>
      (Except.ok (),
       { s with rng := result, reseeder := rs',
                bytes_until_reseed := s.threshold })

/-- Infallible wrapper `ReseedingRng::reseed` (src/reseeding.rs:90-93):
behaviour identical to `try_reseed`, the error is squelched. -/
def ReseedingRng.reseed (from_rng : Rsdr → Except Error R × Rsdr)
    (s : ReseedingRng R Rsdr) : ReseedingRng R Rsdr :=
  (ReseedingRng.try_reseed from_rng s).2

/-- Generation of a 4-byte value, `RngCore::next_u32` for `ReseedingRng`
(src/reseeding.rs:127-134): delegate to the inner generator, debit 4 bytes,
reseed if the budget is exhausted, return the inner generator's value. -/
def ReseedingRng.next_u32 (rc : RngCore R)
    (from_rng : Rsdr → Except Error R × Rsdr) (s : ReseedingRng R Rsdr) :
    Nat × ReseedingRng R Rsdr :=
  match rc.next_u32 s.rng with
  | (value, r') =>
      let s1 : ReseedingRng R Rsdr :=
        { s with rng := r', bytes_until_reseed := s.bytes_until_reseed - 4 }
      (value,
       if s1.bytes_until_reseed ≤ 0 then ReseedingRng.reseed from_rng s1
       else s1)

/-- Generation of an 8-byte value, `RngCore::next_u64` for `ReseedingRng`
(src/reseeding.rs:136-143). -/
def ReseedingRng.next_u64 (rc : RngCore R)
    (from_rng : Rsdr → Except Error R × Rsdr) (s : ReseedingRng R Rsdr) :
    Nat × ReseedingRng R Rsdr :=
  match rc.next_u64 s.rng with
  | (value, r') =>
      let s1 : ReseedingRng R Rsdr :=
        { s with rng := r', bytes_until_reseed := s.bytes_until_reseed - 8 }
      (value,
       if s1.bytes_until_reseed ≤ 0 then ReseedingRng.reseed from_rng s1
       else s1)

/-- Buffer fill, `RngCore::fill_bytes` for `ReseedingRng`
(src/reseeding.rs:145-151): the buffer of length `len` is filled by the
inner generator, `len` bytes are debited, and a reseed is attempted when
the budget is exhausted. -/
def ReseedingRng.fill_bytes (rc : RngCore R)
    (from_rng : Rsdr → Except Error R × Rsdr) (s : ReseedingRng R Rsdr)
    (len : Nat) : List Nat × ReseedingRng R Rsdr :=
  match rc.fill_bytes s.rng len with
  | (dest, r') =>
      let s1 : ReseedingRng R Rsdr :=
        { s with rng := r',
                 bytes_until_reseed := s.bytes_until_reseed - (len : Int) }
      (dest,
       if s1.bytes_until_reseed ≤ 0 then ReseedingRng.reseed from_rng s1
       else s1)

/-- Fallible buffer fill, `RngCore::try_fill_bytes` for `ReseedingRng`
(src/reseeding.rs:153-169): the inner fill result `res1` and the (possibly
triggered) reseed result `res2` are both computed; if the inner fill
failed, the budget is forced to 0 and the inner error is returned,
otherwise `res2` is returned. The returned pair carries the `Result` and
the buffer contents written by the inner generator. -/
def ReseedingRng.try_fill_bytes (rc : RngCore R)
    (from_rng : Rsdr → Except Error R × Rsdr) (s : ReseedingRng R Rsdr)
    (len : Nat) :
    (Except Error Unit × List Nat) × ReseedingRng R Rsdr :=
  match rc.try_fill_bytes s.rng len with
  | ((res1, dest), r') =>
      let s1 : ReseedingRng R Rsdr :=
        { s with rng := r',
                 bytes_until_reseed := s.bytes_until_reseed - (len : Int) }
      let step2 : Except Error Unit × ReseedingRng R Rsdr :=
        if s1.bytes_until_reseed ≤ 0
        then ReseedingRng.try_reseed from_rng s1
        else (Except.ok (), s1)
      match res1 with
      | Except.error e =>
          ((Except.error e, dest), { step2.2 with bytes_until_reseed := 0 })
      | Except.ok _ => ((step2.1, dest), step2.2)

/-- Labels for the operations of the wrapper, used to quantify over call
sequences: the two reseed entry points and the four generation operations. -/
inductive Op where
  | reseedOp
  | tryReseedOp
  | u32
  | u64
  | fill (len : Nat)
  | tryFill (len : Nat)
deriving DecidableEq, Repr

/-- Whether an operation label is one of the four generation operations. -/
def Op.isGen : Op → Bool
  | Op.reseedOp => false
  | Op.tryReseedOp => false
  | _ => true

/-- Number of bytes a generation operation debits from the budget
(4 for a 4-byte value, 8 for an 8-byte value, the buffer length for the
two fills; the reseed entry points debit nothing). -/
def Op.bytes : Op → Nat
  | Op.u32 => 4
  | Op.u64 => 8
  | Op.fill len => len
  | Op.tryFill len => len
  | _ => 0

/-- One call of the labelled operation, keeping only the state. -/
def ReseedingRng.step (rc : RngCore R)
    (from_rng : Rsdr → Except Error R × Rsdr) (s : ReseedingRng R Rsdr) :
    Op → ReseedingRng R Rsdr
  | Op.reseedOp => ReseedingRng.reseed from_rng s
  | Op.tryReseedOp => (ReseedingRng.try_reseed from_rng s).2
  | Op.u32 => (ReseedingRng.next_u32 rc from_rng s).2
  | Op.u64 => (ReseedingRng.next_u64 rc from_rng s).2
  | Op.fill len => (ReseedingRng.fill_bytes rc from_rng s len).2
  | Op.tryFill len => (ReseedingRng.try_fill_bytes rc from_rng s len).2

/-- Run a sequence of labelled operations from a state. -/
def ReseedingRng.runOps (rc : RngCore R)
    (from_rng : Rsdr → Except Error R × Rsdr) (s : ReseedingRng R Rsdr) :
    List Op → ReseedingRng R Rsdr
  | [] => s
  | op :: ops =>
      ReseedingRng.runOps rc from_rng (ReseedingRng.step rc from_rng s op) ops

/-- Concrete deterministic inner generator over state `Nat`, used to
evaluate the model on closed inputs: a counter emitting deterministic
values whose fallible fill always succeeds. -/
def counterRng : RngCore Nat :=
  { next_u32 := fun n => (n, n + 1)
  , next_u64 := fun n => (n * 3, n + 1)
  , fill_bytes := fun n len => ((List.range len).map (fun i => n + i), n + len)
  , try_fill_bytes := fun n len =>
      ((Except.ok (), (List.range len).map (fun i => n + i)), n + len) }

/-- Concrete source error of kind `Other` used by failing seeders. -/
def errOther : Error := { kind := ErrorKind.Other, code := 7 }

/-- Concrete inner-generator error of kind `Other` used by `failingRng`. -/
def errInner : Error := { kind := ErrorKind.Other, code := 3 }

/-- Concrete inner generator over state `Nat` whose fallible fill always
fails with `errInner` (leaving zeroes in the buffer), advancing its state
by one. -/
def failingRng : RngCore Nat :=
  { next_u32 := fun n => (n, n + 1)
  , next_u64 := fun n => (n * 3, n + 1)
  , fill_bytes := fun n len => ((List.range len).map (fun i => n + i), n + len)
  , try_fill_bytes := fun n len =>
      ((Except.error errInner, List.replicate len 0), n + 1) }

/-- Seeding function over a unit source that always succeeds with fresh
inner state `99` and never advances the source. -/
def seedAlways99 : Unit → Except Error Nat × Unit :=
  fun u => (Except.ok 99, u)

/-- Seeding function over a unit source that always succeeds with fresh
inner state `0` and never advances the source — a fixed deterministic
stream rebuilding the same state, like `StepRng::new(0, 0)` in the
crate's own test. -/
def seedAlways0 : Unit → Except Error Nat × Unit :=
  fun u => (Except.ok 0, u)

/-- Seeding function over a `Nat` source state that always fails with the
kind-`Other` error `errOther` and advances the source by one (seed bytes
were consumed before the failure was noticed). -/
def seedFailOther : Nat → Except Error Nat × Nat :=
  fun n => (Except.error errOther, n + 1)

/-- Concrete wrapper state over a `Nat` source: inner state 5, source
state 0, threshold 32, budget exhausted. -/
def sampleState : ReseedingRng Nat Nat :=
  { rng := 5, reseeder := 0, threshold := 32, bytes_until_reseed := 0 }

/-- Concrete wrapper state over a unit source: inner state 5, threshold
32, one byte left in the budget. -/
def almostDueState : ReseedingRng Nat Unit :=
  { rng := 5, reseeder := (), threshold := 32, bytes_until_reseed := 1 }

/-- C1: when `try_reseed` fails to seed a fresh inner generator from the
reseed source, the retry delay stored in `bytes_until_reseed` is determined
solely by the source error's kind — 0 for `Transient`, `threshold >>> 8`
for a kind that reports it should be retried, and the full `threshold` for
any other kind — and in all cases the error returned to the caller is the
source error with its kind replaced by `Transient`. -/
theorem try_reseed_failure_delay_and_kind
    (from_rng : Rsdr → Except Error R × Rsdr) (s : ReseedingRng R Rsdr)
    (e : Error) (rs' : Rsdr)
    (hfail : from_rng s.reseeder = (Except.error e, rs')) :
    (ReseedingRng.try_reseed from_rng s).1 =
      Except.error { e with kind := ErrorKind.Transient } ∧
    (ReseedingRng.try_reseed from_rng s).2.bytes_until_reseed =
      (if e.kind = ErrorKind.Transient then (0 : Int)
       else if e.kind.should_retry then s.threshold >>> 8
       else s.threshold) := by
  obtain ⟨k, c⟩ := e
  unfold ReseedingRng.try_reseed
  rw [hfail]
  cases k <;> simp [ErrorKind.should_retry]

/-- Witness for C1 at a concrete failing source of kind `Other`: the delay
is the full threshold 32 and the returned error has kind `Transient` with
the original payload. -/
theorem try_reseed_failure_delay_and_kind_witness :
    (ReseedingRng.try_reseed seedFailOther sampleState).1 =
      Except.error { kind := ErrorKind.Transient, code := 7 } ∧
    (ReseedingRng.try_reseed seedFailOther sampleState).2.bytes_until_reseed
      = 32 := by
  have h := try_reseed_failure_delay_and_kind seedFailOther sampleState
    errOther 1 rfl
  exact ⟨h.1, h.2.trans (by decide)⟩

/-- C3: when `try_reseed` succeeds in seeding a fresh inner generator from
the reseed source, the fresh instance replaces `rng`, the budget
`bytes_until_reseed` is reset to exactly `threshold`, and the call reports
success. -/
theorem try_reseed_success_installs_fresh
    (from_rng : Rsdr → Except Error R × Rsdr) (s : ReseedingRng R Rsdr)
    (r : R) (rs' : Rsdr)
    (hok : from_rng s.reseeder = (Except.ok r, rs')) :
    ReseedingRng.try_reseed from_rng s =
      (Except.ok (),
       { s with rng := r, reseeder := rs',
                bytes_until_reseed := s.threshold }) := by
  unfold ReseedingRng.try_reseed
  rw [hok]

/-- Witness for C3 at a concrete always-succeeding source: the fresh inner
state 99 is installed and the budget reset to the threshold 32. -/
theorem try_reseed_success_installs_fresh_witness :
    ReseedingRng.try_reseed seedAlways99
        { rng := 5, reseeder := (), threshold := 32, bytes_until_reseed := 0 }
      = (Except.ok (),
         { rng := 99, reseeder := (), threshold := 32,
           bytes_until_reseed := 32 }) :=
  try_reseed_success_installs_fresh seedAlways99
    { rng := 5, reseeder := (), threshold := 32, bytes_until_reseed := 0 }
    99 () rfl

/-- C5 counterexample: a failed seeding attempt may consume bytes from the
reseed source, so a field other than `bytes_until_reseed` — namely
`reseeder` — can change even though seeding failed; the claim that only
`bytes_until_reseed` is updated is therefore false at this input. -/
theorem try_reseed_failure_changes_reseeder :
    (seedFailOther sampleState.reseeder).1 = Except.error errOther ∧
    sampleState.reseeder = 0 ∧
    (ReseedingRng.try_reseed seedFailOther sampleState).2.reseeder = 1 :=
  ⟨rfl, rfl, rfl⟩

/-- C5 (amended): when seeding from the reseed source fails, the `rng`
field and the `threshold` field are left unchanged — only the retry budget
is updated, along with the reseed source's own state, which the failed
seeding attempt may have advanced — so generation afterwards continues from
the same inner state as before the failed attempt. -/
theorem try_reseed_failure_frame
    (from_rng : Rsdr → Except Error R × Rsdr) (s : ReseedingRng R Rsdr)
    (e : Error) (rs' : Rsdr)
    (hfail : from_rng s.reseeder = (Except.error e, rs')) :
    (ReseedingRng.try_reseed from_rng s).2.rng = s.rng ∧
    (ReseedingRng.try_reseed from_rng s).2.threshold = s.threshold := by
  unfold ReseedingRng.try_reseed
  rw [hfail]
  exact ⟨rfl, rfl⟩

/-- Witness for the amended C5 at a concrete failing source: the inner
state 5 and the threshold 32 survive the failed reseed. -/
theorem try_reseed_failure_frame_witness :
    (ReseedingRng.try_reseed seedFailOther sampleState).2.rng = 5 ∧
    (ReseedingRng.try_reseed seedFailOther sampleState).2.threshold = 32 :=
  try_reseed_failure_frame seedFailOther sampleState errOther 1 rfl

/-- C6: construction fails exactly when the threshold exceeds `i64::MAX`,
and for any threshold within the bound it succeeds with the budget
`bytes_until_reseed` initialised to the threshold. -/
theorem new_threshold_bound (rng : R) (reseeder : Rsdr) (threshold : Nat) :
    (ReseedingRng.new rng threshold reseeder = Option.none ↔
      i64_MAX < (threshold : Int)) ∧
    ((threshold : Int) ≤ i64_MAX →
      ReseedingRng.new rng threshold reseeder =
        Option.some { rng := rng, reseeder := reseeder,
                      threshold := (threshold : Int),
                      bytes_until_reseed := (threshold : Int) }) := by
  unfold ReseedingRng.new
  constructor
  · by_cases h : (threshold : Int) ≤ i64_MAX
    · rw [if_pos h]
      simp
      omega
    · rw [if_neg h]
      simp
      omega
  · intro h
    rw [if_pos h]

/-- Witness for C6: threshold 32 is accepted with budget 32, threshold
`2^63` (one past `i64::MAX`) is rejected. -/
theorem new_threshold_bound_witness :
    ReseedingRng.new (5 : Nat) 32 (0 : Nat) =
      Option.some { rng := 5, reseeder := 0, threshold := 32,
                    bytes_until_reseed := 32 } ∧
    ReseedingRng.new (5 : Nat) 9223372036854775808 (0 : Nat) =
      Option.none := by
  refine ⟨(new_threshold_bound (5 : Nat) (0 : Nat) 32).2 (by decide), ?_⟩
  exact (new_threshold_bound (5 : Nat) (0 : Nat) 9223372036854775808).1.mpr
    (by decide)

/-- C2: in `try_fill_bytes`, if the inner generator's fill fails the budget
is forced to exactly 0 and the inner generator's original error — with its
original kind — is returned, discarding any error from a reseed attempt
made in the same call; if the inner fill succeeds, what is returned is the
result of the reseed attempt, an error only when a reseed was triggered in
this call and failed. -/
theorem try_fill_bytes_inner_error_priority
    (rc : RngCore R) (from_rng : Rsdr → Except Error R × Rsdr)
    (s : ReseedingRng R Rsdr) (len : Nat)
    (res1 : Except Error Unit) (dest : List Nat) (r' : R)
    (hres : rc.try_fill_bytes s.rng len = ((res1, dest), r')) :
    (∀ e : Error, res1 = Except.error e →
      (ReseedingRng.try_fill_bytes rc from_rng s len).1.1 =
        Except.error e ∧
      (ReseedingRng.try_fill_bytes rc from_rng s len).2.bytes_until_reseed
        = 0) ∧
    (res1 = Except.ok () →
      (ReseedingRng.try_fill_bytes rc from_rng s len).1.1 =
        (if s.bytes_until_reseed - (len : Int) ≤ 0 then
          (ReseedingRng.try_reseed from_rng
            { s with rng := r',
                     bytes_until_reseed :=
                       s.bytes_until_reseed - (len : Int) }).1
         else Except.ok ())) := by
  constructor
  · intro e he
    subst he
    unfold ReseedingRng.try_fill_bytes
    rw [hres]
    exact ⟨rfl, rfl⟩
  · intro he
    subst he
    unfold ReseedingRng.try_fill_bytes
    rw [hres]
    by_cases hc : s.bytes_until_reseed - (len : Int) ≤ 0
    · simp only []
      rw [if_pos (by simpa using hc)]
      rw [if_pos hc]
    · simp only []
      rw [if_neg (by simpa using hc)]
      rw [if_neg hc]

/-- Witness for C2 at a concrete input where both the inner fill and the
triggered reseed fail: the inner error of kind `Other` is returned
unchanged (the reseed-source error of the same call is discarded) and the
budget is forced to 0. -/
theorem try_fill_bytes_inner_error_priority_witness :
    (ReseedingRng.try_fill_bytes failingRng seedFailOther sampleState 4).1.1
      = Except.error errInner ∧
    (ReseedingRng.try_fill_bytes failingRng seedFailOther
        sampleState 4).2.bytes_until_reseed = 0 :=
  (try_fill_bytes_inner_error_priority failingRng seedFailOther sampleState 4
    (Except.error errInner) (List.replicate 4 0) 6 rfl).1 errInner rfl

/-- C4: each infallible generation operation returns exactly the inner
generator's output obtained before any reseed, debits the budget by the
exact byte count produced (4, 8, or the buffer length), and then calls
`reseed` — which discards any error — if and only if the debited budget is
`≤ 0`. -/
theorem infallible_ops_debit_then_reseed
    (rc : RngCore R) (from_rng : Rsdr → Except Error R × Rsdr)
    (s : ReseedingRng R Rsdr) (len : Nat) :
    ((ReseedingRng.next_u32 rc from_rng s).1 = (rc.next_u32 s.rng).1 ∧
     (ReseedingRng.next_u32 rc from_rng s).2 =
       (let s1 : ReseedingRng R Rsdr :=
          { s with rng := (rc.next_u32 s.rng).2,
                   bytes_until_reseed := s.bytes_until_reseed - 4 }
        if s1.bytes_until_reseed ≤ 0 then ReseedingRng.reseed from_rng s1
        else s1)) ∧
    ((ReseedingRng.next_u64 rc from_rng s).1 = (rc.next_u64 s.rng).1 ∧
     (ReseedingRng.next_u64 rc from_rng s).2 =
       (let s1 : ReseedingRng R Rsdr :=
          { s with rng := (rc.next_u64 s.rng).2,
                   bytes_until_reseed := s.bytes_until_reseed - 8 }
        if s1.bytes_until_reseed ≤ 0 then ReseedingRng.reseed from_rng s1
        else s1)) ∧
    ((ReseedingRng.fill_bytes rc from_rng s len).1 =
       (rc.fill_bytes s.rng len).1 ∧
     (ReseedingRng.fill_bytes rc from_rng s len).2 =
       (let s1 : ReseedingRng R Rsdr :=
          { s with rng := (rc.fill_bytes s.rng len).2,
                   bytes_until_reseed :=
                     s.bytes_until_reseed - (len : Int) }
        if s1.bytes_until_reseed ≤ 0 then ReseedingRng.reseed from_rng s1
        else s1)) := by
  refine ⟨⟨?_, ?_⟩, ⟨?_, ?_⟩, ?_, ?_⟩
  · rcases h : rc.next_u32 s.rng with ⟨v, r'⟩
    simp [ReseedingRng.next_u32, h]
  · rcases h : rc.next_u32 s.rng with ⟨v, r'⟩
    simp [ReseedingRng.next_u32, h]
  · rcases h : rc.next_u64 s.rng with ⟨v, r'⟩
    simp [ReseedingRng.next_u64, h]
  · rcases h : rc.next_u64 s.rng with ⟨v, r'⟩
    simp [ReseedingRng.next_u64, h]
  · rcases h : rc.fill_bytes s.rng len with ⟨dest, r'⟩
    simp [ReseedingRng.fill_bytes, h]
  · rcases h : rc.fill_bytes s.rng len with ⟨dest, r'⟩
    simp [ReseedingRng.fill_bytes, h]

/-- C10: in `try_fill_bytes`, when the inner generator's fill fails but the
reseed attempt triggered in the same call succeeds, the freshly reseeded
inner generator is kept — `rng` was replaced and the budget set to
`threshold` by the reseed — yet the budget is then overwritten to 0, so the
very next generation call triggers another reseed attempt; the inner error
is what is returned. -/
theorem try_fill_bytes_fresh_rng_budget_zero
    (rc : RngCore R) (from_rng : Rsdr → Except Error R × Rsdr)
    (s : ReseedingRng R Rsdr) (len : Nat)
    (e : Error) (dest : List Nat) (r' : R) (fresh : R) (rs' : Rsdr)
    (hres : rc.try_fill_bytes s.rng len = ((Except.error e, dest), r'))
    (hdue : s.bytes_until_reseed - (len : Int) ≤ 0)
    (hseed : from_rng s.reseeder = (Except.ok fresh, rs')) :
    (ReseedingRng.try_fill_bytes rc from_rng s len).2.rng = fresh ∧
    (ReseedingRng.try_fill_bytes rc from_rng s len).2.bytes_until_reseed
      = 0 ∧
    (ReseedingRng.try_fill_bytes rc from_rng s len).1.1 =
      Except.error e := by
  unfold ReseedingRng.try_fill_bytes
  rw [hres]
  simp only []
  rw [if_pos (by simpa using hdue)]
  unfold ReseedingRng.try_reseed
  have hre : ({ s with rng := r',
                       bytes_until_reseed :=
                         s.bytes_until_reseed - (len : Int) } :
                ReseedingRng R Rsdr).reseeder = s.reseeder := rfl
  rw [hre, hseed]
  exact ⟨rfl, trivial, trivial⟩

/-- Witness for C10 at a concrete input: the inner fill fails, the budget
crosses from 1 to below 0 triggering a reseed that succeeds with fresh
state 99; the result keeps `rng = 99`, forces the budget to 0, and returns
the inner error. -/
theorem try_fill_bytes_fresh_rng_budget_zero_witness :
    (ReseedingRng.try_fill_bytes failingRng seedAlways99
        almostDueState 32).2.rng = 99 ∧
    (ReseedingRng.try_fill_bytes failingRng seedAlways99
        almostDueState 32).2.bytes_until_reseed = 0 ∧
    (ReseedingRng.try_fill_bytes failingRng seedAlways99
        almostDueState 32).1.1 = Except.error errInner :=
  try_fill_bytes_fresh_rng_budget_zero failingRng seedAlways99 almostDueState
    32 errInner (List.replicate 32 0) 6 99 () rfl (by decide) rfl

/-- Helper: `try_reseed` never modifies the `threshold` field. -/
theorem ReseedingRng.try_reseed_threshold
    (from_rng : Rsdr → Except Error R × Rsdr) (s : ReseedingRng R Rsdr) :
    (ReseedingRng.try_reseed from_rng s).2.threshold = s.threshold := by
  unfold ReseedingRng.try_reseed
  rcases h : from_rng s.reseeder with ⟨res, rs'⟩
  cases res <;> simp

/-- Helper: `reseed` never modifies the `threshold` field. -/
theorem ReseedingRng.reseed_threshold
    (from_rng : Rsdr → Except Error R × Rsdr) (s : ReseedingRng R Rsdr) :
    (ReseedingRng.reseed from_rng s).threshold = s.threshold :=
  ReseedingRng.try_reseed_threshold from_rng s

/-- Helper: no single operation modifies the `threshold` field. -/
theorem ReseedingRng.step_threshold (rc : RngCore R)
    (from_rng : Rsdr → Except Error R × Rsdr) (s : ReseedingRng R Rsdr)
    (op : Op) :
    (ReseedingRng.step rc from_rng s op).threshold = s.threshold := by
  cases op with
  | reseedOp => exact ReseedingRng.reseed_threshold from_rng s
  | tryReseedOp => exact ReseedingRng.try_reseed_threshold from_rng s
  | u32 =>
      rcases h : rc.next_u32 s.rng with ⟨v, r'⟩
      simp only [ReseedingRng.step, ReseedingRng.next_u32, h]
      split
      · rw [ReseedingRng.reseed_threshold]
      · rfl
  | u64 =>
      rcases h : rc.next_u64 s.rng with ⟨v, r'⟩
      simp only [ReseedingRng.step, ReseedingRng.next_u64, h]
      split
      · rw [ReseedingRng.reseed_threshold]
      · rfl
  | fill len =>
      rcases h : rc.fill_bytes s.rng len with ⟨dest, r'⟩
      simp only [ReseedingRng.step, ReseedingRng.fill_bytes, h]
      split
      · rw [ReseedingRng.reseed_threshold]
      · rfl
  | tryFill len =>
      rcases h : rc.try_fill_bytes s.rng len with ⟨⟨res1, dest⟩, r'⟩
      simp only [ReseedingRng.step, ReseedingRng.try_fill_bytes, h]
      cases res1 with
      | error e =>
          simp only []
          split
          · rw [ReseedingRng.try_reseed_threshold]
          · rfl
      | ok u =>
          simp only []
          split
          · rw [ReseedingRng.try_reseed_threshold]
          · rfl

/-- Helper: no sequence of operations modifies the `threshold` field. -/
theorem ReseedingRng.runOps_threshold (rc : RngCore R)
    (from_rng : Rsdr → Except Error R × Rsdr) (ops : List Op) :
    ∀ s : ReseedingRng R Rsdr,
      (ReseedingRng.runOps rc from_rng s ops).threshold = s.threshold := by
  induction ops with
  | nil => intro s; rfl
  | cons op ops ih =>
      intro s
      exact (ih (ReseedingRng.step rc from_rng s op)).trans
        (ReseedingRng.step_threshold rc from_rng s op)

/-- C8: the `threshold` field is fixed at construction and never modified
by any of the operations (`reseed`, `try_reseed`, `next_u32`, `next_u64`,
`fill_bytes`, `try_fill_bytes`), and `0 ≤ threshold ≤ i64::MAX` holds in
every reachable state, i.e. after any sequence of operations run from a
successfully constructed instance. -/
theorem threshold_fixed_and_bounded (rc : RngCore R)
    (from_rng : Rsdr → Except Error R × Rsdr) (rng0 : R) (reseeder0 : Rsdr)
    (t : Nat) (s0 : ReseedingRng R Rsdr) (ops : List Op)
    (hnew : ReseedingRng.new rng0 t reseeder0 = Option.some s0) :
    (ReseedingRng.runOps rc from_rng s0 ops).threshold = (t : Int) ∧
    0 ≤ (ReseedingRng.runOps rc from_rng s0 ops).threshold ∧
    (ReseedingRng.runOps rc from_rng s0 ops).threshold ≤ i64_MAX := by
  have hbound : (t : Int) ≤ i64_MAX := by
    by_contra hb
    unfold ReseedingRng.new at hnew
    rw [if_neg hb] at hnew
    exact Option.noConfusion hnew
  have hs0 : s0.threshold = (t : Int) := by
    unfold ReseedingRng.new at hnew
    rw [if_pos hbound] at hnew
    cases hnew
    rfl
  have hrun := (ReseedingRng.runOps_threshold rc from_rng ops s0).trans hs0
  refine ⟨hrun, ?_, ?_⟩
  · rw [hrun]
    exact Int.ofNat_nonneg t
  · rw [hrun]
    exact hbound

/-- Witness for C8: from a freshly constructed instance with threshold 32,
a sequence exercising all six operations leaves `threshold` at 32, within
bounds. -/
theorem threshold_fixed_and_bounded_witness :
    (ReseedingRng.runOps counterRng seedFailOther
        { rng := 5, reseeder := 0, threshold := 32, bytes_until_reseed := 32 }
        [Op.u32, Op.u64, Op.fill 40, Op.tryFill 3, Op.reseedOp,
         Op.tryReseedOp]).threshold = (32 : Int) ∧
    0 ≤ (ReseedingRng.runOps counterRng seedFailOther
        { rng := 5, reseeder := 0, threshold := 32, bytes_until_reseed := 32 }
        [Op.u32, Op.u64, Op.fill 40, Op.tryFill 3, Op.reseedOp,
         Op.tryReseedOp]).threshold ∧
    (ReseedingRng.runOps counterRng seedFailOther
        { rng := 5, reseeder := 0, threshold := 32, bytes_until_reseed := 32 }
        [Op.u32, Op.u64, Op.fill 40, Op.tryFill 3, Op.reseedOp,
         Op.tryReseedOp]).threshold ≤ i64_MAX :=
  threshold_fixed_and_bounded counterRng seedFailOther 5 0 32
    { rng := 5, reseeder := 0, threshold := 32, bytes_until_reseed := 32 }
    [Op.u32, Op.u64, Op.fill 40, Op.tryFill 3, Op.reseedOp, Op.tryReseedOp]
    rfl

/-- C7 counterexample: with a reseed source whose seeding attempts all
succeed (it is a function on the one-element source state, so this single
equation covers every attempt), the generation call `try_fill_bytes` with
a 32-byte buffer drives the budget from 1 to below 0, the inner generator
is replaced by the fresh instance 99 — but immediately after the call the
budget is 0, not the threshold 32, because the inner fill failed in the
same call. -/
theorem gen_exhaustion_budget_not_threshold :
    seedAlways99 () = (Except.ok 99, ()) ∧
    almostDueState.bytes_until_reseed = 1 ∧
    almostDueState.threshold = 32 ∧
    (ReseedingRng.step failingRng seedAlways99 almostDueState
        (Op.tryFill 32)).rng = 99 ∧
    (ReseedingRng.step failingRng seedAlways99 almostDueState
        (Op.tryFill 32)).bytes_until_reseed = 0 :=
  ⟨rfl, rfl, rfl, rfl, rfl⟩

/-- C7 (amended): if the seeding attempt from the reseed source succeeds,
then any generation call that drives the budget from positive to `≤ 0`
performs exactly one replacement of the inner generator in that same call
(the fresh instance is installed and the source consumed exactly once),
and immediately after the call the budget equals `threshold` — except that
`try_fill_bytes` whose inner fill failed forces the budget to 0 instead. -/
theorem gen_exhaustion_single_replacement (rc : RngCore R)
    (from_rng : Rsdr → Except Error R × Rsdr) (s : ReseedingRng R Rsdr)
    (op : Op) (fresh : R) (rs' : Rsdr)
    (hgen : op.isGen = true)
    (hpos : 0 < s.bytes_until_reseed)
    (hdue : s.bytes_until_reseed - (op.bytes : Int) ≤ 0)
    (hseed : from_rng s.reseeder = (Except.ok fresh, rs')) :
    (ReseedingRng.step rc from_rng s op).rng = fresh ∧
    (ReseedingRng.step rc from_rng s op).reseeder = rs' ∧
    (ReseedingRng.step rc from_rng s op).bytes_until_reseed =
      (match op with
       | Op.tryFill len =>
           (match (rc.try_fill_bytes s.rng len).1.1 with
            | Except.ok _ => s.threshold
            | Except.error _ => (0 : Int))
       | _ => s.threshold) := by
  cases op with
  | reseedOp => exact absurd hgen (by simp [Op.isGen])
  | tryReseedOp => exact absurd hgen (by simp [Op.isGen])
  | u32 =>
      rcases h : rc.next_u32 s.rng with ⟨v, r'⟩
      have hc : s.bytes_until_reseed - 4 ≤ 0 := by
        simpa [Op.bytes] using hdue
      simp [ReseedingRng.step, ReseedingRng.next_u32, h, hc,
            ReseedingRng.reseed, ReseedingRng.try_reseed, hseed]
  | u64 =>
      rcases h : rc.next_u64 s.rng with ⟨v, r'⟩
      have hc : s.bytes_until_reseed - 8 ≤ 0 := by
        simpa [Op.bytes] using hdue
      simp [ReseedingRng.step, ReseedingRng.next_u64, h, hc,
            ReseedingRng.reseed, ReseedingRng.try_reseed, hseed]
  | fill len =>
      rcases h : rc.fill_bytes s.rng len with ⟨dest, r'⟩
      have hc : s.bytes_until_reseed - (len : Int) ≤ 0 := by
        simpa [Op.bytes] using hdue
      simp [ReseedingRng.step, ReseedingRng.fill_bytes, h, hc,
            ReseedingRng.reseed, ReseedingRng.try_reseed, hseed]
  | tryFill len =>
      rcases h : rc.try_fill_bytes s.rng len with ⟨⟨res1, dest⟩, r'⟩
      have hc : s.bytes_until_reseed - (len : Int) ≤ 0 := by
        simpa [Op.bytes] using hdue
      cases res1 with
      | error e =>
          simp [ReseedingRng.step, ReseedingRng.try_fill_bytes, h, hc,
                ReseedingRng.try_reseed, hseed]
      | ok u =>
          simp [ReseedingRng.step, ReseedingRng.try_fill_bytes, h, hc,
                ReseedingRng.try_reseed, hseed]

/-- Witness for the amended C7: a `next_u32` call from budget 4 (debited to
0) with an always-succeeding source installs the fresh inner state 99 and
resets the budget to the threshold 32. -/
theorem gen_exhaustion_single_replacement_witness :
    (ReseedingRng.step counterRng seedAlways99
        { rng := 5, reseeder := (), threshold := 32, bytes_until_reseed := 4 }
        Op.u32).rng = 99 ∧
    (ReseedingRng.step counterRng seedAlways99
        { rng := 5, reseeder := (), threshold := 32, bytes_until_reseed := 4 }
        Op.u32).reseeder = () ∧
    (ReseedingRng.step counterRng seedAlways99
        { rng := 5, reseeder := (), threshold := 32, bytes_until_reseed := 4 }
        Op.u32).bytes_until_reseed = 32 := by
  have h := gen_exhaustion_single_replacement counterRng seedAlways99
    { rng := 5, reseeder := (), threshold := 32, bytes_until_reseed := 4 }
    Op.u32 99 () rfl (by decide) (by decide) rfl
  exact ⟨h.1, h.2.1, h.2.2⟩

/-- C9: with threshold 32, a deterministic inner generator and a reseed
source that is a fixed deterministic stream — every seeding attempt
rebuilds the same inner state `r0` without advancing the source — filling
a 32-byte buffer repeatedly through the infallible fill after construction
yields the identical 32-byte output on every repetition: each fill
exhausts the budget, and the triggered reseed restores exactly the
post-construction state. -/
theorem deterministic_refill_repeats (rc : RngCore R)
    (from_rng : Rsdr → Except Error R × Rsdr) (z : Rsdr) (r0 : R)
    (s0 : ReseedingRng R Rsdr)
    (hseed : from_rng z = (Except.ok r0, z))
    (hnew : ReseedingRng.new r0 32 z = Option.some s0) :
    ∀ n : Nat,
      (ReseedingRng.fill_bytes rc from_rng
        ((fun t => (ReseedingRng.fill_bytes rc from_rng t 32).2)^[n] s0)
        32).1
      = (rc.fill_bytes r0 32).1 := by
  have hs0 : s0 = { rng := r0, reseeder := z, threshold := 32,
                    bytes_until_reseed := 32 } := by
    unfold ReseedingRng.new at hnew
    rw [if_pos (by decide)] at hnew
    cases hnew
    rfl
  subst hs0
  have hfix : (fun t => (ReseedingRng.fill_bytes rc from_rng t 32).2)
      { rng := r0, reseeder := z, threshold := 32, bytes_until_reseed := 32 }
      = { rng := r0, reseeder := z, threshold := 32,
          bytes_until_reseed := 32 } := by
    rcases h : rc.fill_bytes r0 32 with ⟨dest, r1⟩
    simp [ReseedingRng.fill_bytes, h, ReseedingRng.reseed,
          ReseedingRng.try_reseed, hseed]
  intro n
  rw [Function.iterate_fixed hfix n]
  rcases h : rc.fill_bytes r0 32 with ⟨dest, r1⟩
  simp [ReseedingRng.fill_bytes, h]

/-- Witness for C9 with the concrete deterministic counter generator and
the fixed source rebuilding inner state 0: after two full 32-byte fills the
third fill still produces the same output as the first. -/
theorem deterministic_refill_repeats_witness :
    (ReseedingRng.fill_bytes counterRng seedAlways0
        ((fun t => (ReseedingRng.fill_bytes counterRng seedAlways0 t 32).2)^[2]
          { rng := 0, reseeder := (), threshold := 32,
            bytes_until_reseed := 32 })
        32).1
      = (counterRng.fill_bytes 0 32).1 :=
  deterministic_refill_repeats counterRng seedAlways0 () 0
    { rng := 0, reseeder := (), threshold := 32, bytes_until_reseed := 32 }
    rfl rfl 2
